import Mathlib

/-!
Verification of the storage abstraction layer of the LSHash repository
(`lshash/storage.py`): the storage factory, the in-memory adapter, the
Redis (remote key/value) adapter and the Cassandra (column store) adapter.

Python values are embedded as an inductive type `PyVal`; Python dictionaries
as association lists; fallible operations return `Except PyError`.
The external client libraries (redis-py, cql) are collaborators outside the
repository; their native primitives are modelled from the specification's
interface assumptions, and each such definition says so in its doc comment.
-/

set_option autoImplicit false

namespace LSHashStorage

/-- Embedded Python values. `str` is a py2 `str` (a byte string), `int` an
integer, `vlist` a list, `none` the value `None`. Two opaque byte encodings
produced by external serializers are kept abstract but distinguishable:
`pickled v` stands for the bytes `pickle.dumps(csr_matrix(array(v)))`
(the Cassandra append path), and `bytesOf v` stands for the byte rendering
a network client applies to a non-string payload before transmission. -/
inductive PyVal where
  | str (s : String)
  | int (n : Int)
  | vlist (xs : List PyVal)
  | none
  | pickled (v : PyVal)
  | bytesOf (v : PyVal)

mutual

/-- Decidable equality on embedded Python values (written by hand because
`PyVal` nests `List PyVal`). -/
def PyVal.decEq : (a b : PyVal) → Decidable (a = b)
  | .str a, .str b =>
    match hs : decide (a = b) with
    | true => Decidable.isTrue (by rw [of_decide_eq_true hs])
    | false => Decidable.isFalse (fun h => absurd (PyVal.str.inj h) (of_decide_eq_false hs))
  | .int a, .int b =>
    match hs : decide (a = b) with
    | true => Decidable.isTrue (by rw [of_decide_eq_true hs])
    | false => Decidable.isFalse (fun h => absurd (PyVal.int.inj h) (of_decide_eq_false hs))
  | .vlist a, .vlist b =>
    match PyVal.decEqList a b with
    | Decidable.isTrue h => Decidable.isTrue (by rw [h])
    | Decidable.isFalse h => Decidable.isFalse (fun hh => h (PyVal.vlist.inj hh))
  | .none, .none => Decidable.isTrue rfl
  | .pickled a, .pickled b =>
    match PyVal.decEq a b with
    | Decidable.isTrue h => Decidable.isTrue (by rw [h])
    | Decidable.isFalse h => Decidable.isFalse (fun hh => h (PyVal.pickled.inj hh))
  | .bytesOf a, .bytesOf b =>
    match PyVal.decEq a b with
    | Decidable.isTrue h => Decidable.isTrue (by rw [h])
    | Decidable.isFalse h => Decidable.isFalse (fun hh => h (PyVal.bytesOf.inj hh))
  | .str _, .int _ => Decidable.isFalse (fun h => PyVal.noConfusion h)
  | .str _, .vlist _ => Decidable.isFalse (fun h => PyVal.noConfusion h)
  | .str _, .none => Decidable.isFalse (fun h => PyVal.noConfusion h)
  | .str _, .pickled _ => Decidable.isFalse (fun h => PyVal.noConfusion h)
  | .str _, .bytesOf _ => Decidable.isFalse (fun h => PyVal.noConfusion h)
  | .int _, .str _ => Decidable.isFalse (fun h => PyVal.noConfusion h)
  | .int _, .vlist _ => Decidable.isFalse (fun h => PyVal.noConfusion h)
  | .int _, .none => Decidable.isFalse (fun h => PyVal.noConfusion h)
  | .int _, .pickled _ => Decidable.isFalse (fun h => PyVal.noConfusion h)
  | .int _, .bytesOf _ => Decidable.isFalse (fun h => PyVal.noConfusion h)
  | .vlist _, .str _ => Decidable.isFalse (fun h => PyVal.noConfusion h)
  | .vlist _, .int _ => Decidable.isFalse (fun h => PyVal.noConfusion h)
  | .vlist _, .none => Decidable.isFalse (fun h => PyVal.noConfusion h)
  | .vlist _, .pickled _ => Decidable.isFalse (fun h => PyVal.noConfusion h)
  | .vlist _, .bytesOf _ => Decidable.isFalse (fun h => PyVal.noConfusion h)
  | .none, .str _ => Decidable.isFalse (fun h => PyVal.noConfusion h)
  | .none, .int _ => Decidable.isFalse (fun h => PyVal.noConfusion h)
  | .none, .vlist _ => Decidable.isFalse (fun h => PyVal.noConfusion h)
  | .none, .pickled _ => Decidable.isFalse (fun h => PyVal.noConfusion h)
  | .none, .bytesOf _ => Decidable.isFalse (fun h => PyVal.noConfusion h)
  | .pickled _, .str _ => Decidable.isFalse (fun h => PyVal.noConfusion h)
  | .pickled _, .int _ => Decidable.isFalse (fun h => PyVal.noConfusion h)
  | .pickled _, .vlist _ => Decidable.isFalse (fun h => PyVal.noConfusion h)
  | .pickled _, .none => Decidable.isFalse (fun h => PyVal.noConfusion h)
  | .pickled _, .bytesOf _ => Decidable.isFalse (fun h => PyVal.noConfusion h)
  | .bytesOf _, .str _ => Decidable.isFalse (fun h => PyVal.noConfusion h)
  | .bytesOf _, .int _ => Decidable.isFalse (fun h => PyVal.noConfusion h)
  | .bytesOf _, .vlist _ => Decidable.isFalse (fun h => PyVal.noConfusion h)
  | .bytesOf _, .none => Decidable.isFalse (fun h => PyVal.noConfusion h)
  | .bytesOf _, .pickled _ => Decidable.isFalse (fun h => PyVal.noConfusion h)

/-- Decidable equality on lists of embedded Python values. -/
def PyVal.decEqList : (a b : List PyVal) → Decidable (a = b)
  | [], [] => Decidable.isTrue rfl
  | [], _ :: _ => Decidable.isFalse (fun h => List.noConfusion h)
  | _ :: _, [] => Decidable.isFalse (fun h => List.noConfusion h)
  | x :: xs, y :: ys =>
    match PyVal.decEq x y with
    | Decidable.isFalse h => Decidable.isFalse (fun hh => h (List.cons.inj hh).1)
    | Decidable.isTrue h1 =>
      match PyVal.decEqList xs ys with
      | Decidable.isTrue h2 => Decidable.isTrue (by rw [h1, h2])
      | Decidable.isFalse h2 => Decidable.isFalse (fun hh => h2 (List.cons.inj hh).2)

end

instance : DecidableEq PyVal := PyVal.decEq

/-- Embedded Python exceptions raised by the storage module or its clients. -/
inductive PyError where
  | nameError (n : String)
  | keyError
  | attributeError
  | importError (msg : String)
  | valueError (msg : String)
  | wrongTypeError
  deriving DecidableEq

/-- Lookup in an association list embedding a Python dict: the value at the
first matching key, if any. -/
def alookup {κ : Type} {α : Type} [DecidableEq κ] (l : List (κ × α)) (k : κ) : Option α :=
  match l with
  | [] => Option.none
  | (k2, v) :: t => if k2 = k then Option.some v else alookup t k

/-- Assignment `d[k] = v` on an association list embedding a Python dict:
replaces the value of an existing key in place, otherwise appends the new
binding at the end (Python dict insertion order). -/
def aset {κ : Type} {α : Type} [DecidableEq κ] (l : List (κ × α)) (k : κ) (v : α) :
    List (κ × α) :=
  match l with
  | [] => [(k, v)]
  | (k2, w) :: t => if k2 = k then (k, v) :: t else (k2, w) :: aset t k v

/-- Membership test `k in d` on an association list embedding a Python dict. -/
def ahasKey {κ : Type} {α : Type} [DecidableEq κ] (l : List (κ × α)) (k : κ) : Bool :=
  match l with
  | [] => false
  | (k2, _) :: t => if k2 = k then true else ahasKey t k

/-- Backend-specific parameter sub-map (for example host, port, db),
embedding one value of `storage_config`. -/
abbrev Params := List (String × PyVal)

/-- The `storage_config` argument of the factory: a Python dict mapping a
backend name to its parameter sub-map. -/
abbrev StorageConfig := List (String × Params)

/-! ## In-memory adapter (`InMemoryStorage`) -/

/-- The process-local dict held by `InMemoryStorage` (`self.storage`),
mapping a hash key to the stored value (a scalar set by `set_val` or a
Python list built by `append_val`). -/
abbrev InMemDict := List (PyVal × PyVal)

namespace InMemoryStorage

/-- Constructor of `InMemoryStorage`: the `config` argument is received and
discarded; `self.storage` starts as the empty dict `dict()`. -/
def init (_config : Params) : InMemDict := []

/-- Method `keys`: `self.storage.keys()`. A py2 dict does not document an
iteration order; only membership in the returned list is relied upon. -/
def keys (st : InMemDict) : List PyVal := st.map Prod.fst

/-- Method `set_val`: `self.storage[key] = val`. -/
def set_val (st : InMemDict) (key val : PyVal) : InMemDict := aset st key val

/-- Method `get_val`: `self.storage[key]`; raises `KeyError` when the key is
absent. -/
def get_val (st : InMemDict) (key : PyVal) : Except PyError PyVal :=
  match alookup st key with
  | Option.some v => Except.ok v
  | Option.none => Except.error PyError.keyError

/-- Method `append_val`: `self.storage.setdefault(key, []).append(val)`.
When the key is absent a fresh list holding `val` is bound; when it holds a
list, `val` is appended in place; appending to a non-list value raises
`AttributeError` (the stored object has no `append`). -/
def append_val (st : InMemDict) (key val : PyVal) : Except PyError InMemDict :=
  match alookup st key with
  | Option.none => Except.ok (aset st key (PyVal.vlist [val]))
  | Option.some (PyVal.vlist xs) => Except.ok (aset st key (PyVal.vlist (xs ++ [val])))
  | Option.some _ => Except.error PyError.attributeError

/-- Method `get_list`: `self.storage.get(key, [])`; returns whatever object
is stored at `key`, or the empty list when the key is absent. Never raises. -/
def get_list (st : InMemDict) (key : PyVal) : PyVal :=
  match alookup st key with
  | Option.some v => v
  | Option.none => PyVal.vlist []

end InMemoryStorage

/-! ## Module namespace of `lshash/storage.py`

Used to settle whether a bare name occurring in a method body resolves.
The module imports `ujson`, `cPickle as pickle`, `csr_matrix`, `array` and
`logging`, binds `redis` and `cql` (to the module or to `None` under the
guarded imports), and defines `__all__`, `storage` and the four classes. -/

/-- Names bound at module level of `lshash/storage.py`, read off its import
statements, import guards and top-level definitions. -/
def moduleBindings : List String :=
  ["ujson", "pickle", "csr_matrix", "array", "logging", "redis", "cql",
   "__all__", "storage", "BaseStorage", "InMemoryStorage", "RedisStorage",
   "CassandraStorage"]

/-- Python builtin names the module's code refers to. The name `json` is not
a Python builtin: the standard `json` module is only available after an
explicit `import json`, which this module does not perform. -/
def referencedBuiltins : List String :=
  ["dict", "object", "ImportError", "ValueError", "NotImplementedError"]

/-- Resolution of a bare name inside a method body of the module: it
resolves when bound at module level or a referenced builtin, and otherwise
evaluating it raises `NameError`. -/
def resolvesName (n : String) : Bool :=
  moduleBindings.contains n || referencedBuiltins.contains n

/-! ## Redis adapter (`RedisStorage`)

The redis client is an external collaborator (not part of this repository);
its native primitives are modelled from the specification's interface
assumption that the remote key/value store exposes primitive
get/set/append-to-list/list-keys operations. -/

/-- One slot of the remote key/value store: a scalar byte string set by the
native SET, or a list built by the native RPUSH. -/
inductive RedisEntry where
  | scalar (v : PyVal)
  | rlist (xs : List PyVal)
  deriving DecidableEq

/-- The remote store's keyspace, one entry per key. -/
abbrev RedisState := List (PyVal × RedisEntry)

/-- Modelled from the spec: the byte encoding the remote-KV client applies
to a value before transmission. A py2 `str` is already a byte string and
passes through unchanged; any other payload is rendered to its byte-string
form, kept abstract as `PyVal.bytesOf`. -/
def redisEncode : PyVal → PyVal
  | PyVal.str s => PyVal.str s
  | v => PyVal.bytesOf v

/-- Modelled from the spec: the remote store's native SET primitive, which
unconditionally overwrites the slot at `key` with a scalar. -/
def redisNativeSet (st : RedisState) (key v : PyVal) : RedisState :=
  aset st key (RedisEntry.scalar v)

/-- Modelled from the spec: the remote store's native GET primitive. The
client returns `None` for an absent key; reading a list slot as a scalar is
a wrong-type error. -/
def redisNativeGet (st : RedisState) (key : PyVal) : Except PyError PyVal :=
  match alookup st key with
  | Option.none => Except.ok PyVal.none
  | Option.some (RedisEntry.scalar v) => Except.ok v
  | Option.some (RedisEntry.rlist _) => Except.error PyError.wrongTypeError

/-- Modelled from the spec: the remote store's native right-push-to-list
primitive, performed by the store as one atomic operation; pushes onto an
absent key create the list. -/
def redisNativeRpush (st : RedisState) (key v : PyVal) : Except PyError RedisState :=
  match alookup st key with
  | Option.none => Except.ok (aset st key (RedisEntry.rlist [v]))
  | Option.some (RedisEntry.rlist xs) => Except.ok (aset st key (RedisEntry.rlist (xs ++ [v])))
  | Option.some (RedisEntry.scalar _) => Except.error PyError.wrongTypeError

/-- Modelled from the spec: the remote store's native full-range list read
(`lrange key 0 -1`); an absent key reads as the empty list. -/
def redisNativeLrange (st : RedisState) (key : PyVal) : Except PyError (List PyVal) :=
  match alookup st key with
  | Option.none => Except.ok []
  | Option.some (RedisEntry.rlist xs) => Except.ok xs
  | Option.some (RedisEntry.scalar _) => Except.error PyError.wrongTypeError

namespace RedisStorage

/-- The adapter handle: records the parameters passed to the client
constructor `redis.StrictRedis(**config)`. -/
structure Handle where
  config : Params
  deriving DecidableEq

/-- Constructor of `RedisStorage` (`__init__`): raises
`ImportError("redis-py is required to use Redis as storage.")` when the
redis client library failed to import (the guarded `import redis` left the
name bound to `None`); otherwise constructs the client from `config`. -/
def init (redisAvailable : Bool) (config : Params) : Except PyError Handle :=
  if redisAvailable then Except.ok ⟨config⟩
  else Except.error (PyError.importError "redis-py is required to use Redis as storage.")

/-- Method `set_val`: `self.storage.set(key, val)`, delegated to the native
SET after the client's byte encoding of `val`. -/
def set_val (st : RedisState) (key val : PyVal) : RedisState :=
  redisNativeSet st key (redisEncode val)

/-- Method `get_val`: `self.storage.get(key)`. -/
def get_val (st : RedisState) (key : PyVal) : Except PyError PyVal :=
  redisNativeGet st key

/-- Method `append_val`: `self.storage.rpush(key, json.dumps(val))`. The
argument `json.dumps(val)` is evaluated first, which requires resolving the
bare name `json`; when it does not resolve the call raises
`NameError("json")` before any push is issued. (The branch in which the
name resolves serializes `val` to its byte form and delegates to the native
right push; it is unreachable for this module, whose imports bind `ujson`,
not `json`.) -/
def append_val (st : RedisState) (key val : PyVal) : Except PyError RedisState :=
  if resolvesName "json" then redisNativeRpush st key (PyVal.bytesOf val)
  else Except.error (PyError.nameError "json")

/-- Method `get_list`: `self.storage.lrange(key, 0, -1)`, returning the
entries as received from the store, still encoded. -/
def get_list (st : RedisState) (key : PyVal) : Except PyError (List PyVal) :=
  redisNativeLrange st key

end RedisStorage

/-! ## Cassandra adapter (`CassandraStorage`)

The cql client and the cluster are external collaborators; the pre-existing
table `lsh(key, val)` is modelled from the specification's schema
assumption as a sequence of rows, with `INSERT` adding a row and `SELECT`
scanning rows in order. -/

/-- Modelled from the spec: the rows of the table `lsh(key, val)` in the
configured keyspace, in arrival order. -/
abbrev CassTable := List (PyVal × PyVal)

namespace CassandraStorage

/-- The adapter handle: records the connection parameters handed to
`cql.connect` and the keyspace selected at construction. -/
structure Handle where
  config : Params
  deriving DecidableEq

/-- Constructor of `CassandraStorage` (`__init__`): raises
`ImportError("cql is required to use Cassandra as storage.")` when the cql
client library failed to import; otherwise connects to the cluster and
selects the configured keyspace. -/
def init (cqlAvailable : Bool) (config : Params) : Except PyError Handle :=
  if cqlAvailable then Except.ok ⟨config⟩
  else Except.error (PyError.importError "cql is required to use Cassandra as storage.")

/-- Method `keys`: executes `SELECT key FROM lsh` and returns every row's
key. The `pattern` parameter is accepted (defaulting to the match-all
pattern) but does not occur in the query. -/
def keys (t : CassTable) (_pattern : PyVal) : List PyVal :=
  t.map Prod.fst

/-- Method `set_val`: `INSERT INTO lsh (key, val) VALUES (:key, :val)` with
the value unencoded. -/
def set_val (t : CassTable) (key val : PyVal) : CassTable :=
  t ++ [(key, val)]

/-- Method `append_val`: computes `s = pickle.dumps(csr_matrix(array(val)))`
(the opaque encoding `PyVal.pickled`) and inserts the row `(key, s)`; the
contract's list-at-key is realized by `get_list` aggregating rows, so the
insert only adds a row. -/
def append_val (t : CassTable) (key val : PyVal) : CassTable :=
  t ++ [(key, PyVal.pickled val)]

/-- Method `get_list`: executes `SELECT val FROM lsh WHERE key=:key` and
collects `row[0]` of every matching row, as stored — no decoding is
applied. -/
def get_list (t : CassTable) (key : PyVal) : List PyVal :=
  (t.filter (fun r => r.fst == key)).map Prod.snd

end CassandraStorage

/-! ## Storage factory (`storage`) -/

/-- The adapter instance returned by the factory, together with the
argument that was passed to the adapter's constructor. -/
inductive StorageInstance where
  | inMemory (config : Params)
  | redisH (h : RedisStorage.Handle)
  | cassandraH (h : CassandraStorage.Handle)
  deriving DecidableEq

/-- The message of the `ValueError` raised by the factory when no
recognized backend key is present. -/
def factoryErrMsg : String :=
  "Only in-memory dictionary, Redis and Cassandra are supported."

/-- The factory `storage(storage_config, index)`: tests the backend keys in
the order `dict`, `redis`, `cassandra` with an if/elif chain; for the redis
and cassandra branches it first executes
`storage_config[name]["db"] = index` and then hands the sub-map to the
adapter constructor; when no recognized key is present it raises
`ValueError`. The two availability flags model whether the guarded imports
of the client libraries succeeded, which the adapter constructors check. -/
def storage (redisAvailable cqlAvailable : Bool) (storage_config : StorageConfig)
    (index : Int) : Except PyError StorageInstance :=
  if ahasKey storage_config "dict" then
    Except.ok (StorageInstance.inMemory ((alookup storage_config "dict").getD []))
  else if ahasKey storage_config "redis" then
    (RedisStorage.init redisAvailable
        (aset ((alookup storage_config "redis").getD []) "db" (PyVal.int index))).map
      StorageInstance.redisH
  else if ahasKey storage_config "cassandra" then
    (CassandraStorage.init cqlAvailable
        (aset ((alookup storage_config "cassandra").getD []) "db" (PyVal.int index))).map
      StorageInstance.cassandraH
  else
    Except.error (PyError.valueError factoryErrMsg)

/-! ## Helper lemmas -/

theorem alookup_aset {κ α : Type} [DecidableEq κ] (l : List (κ × α)) (k : κ) (v : α) :
    alookup (aset l k v) k = Option.some v := by
  induction l with
  | nil => simp [aset, alookup]
  | cons hd tl ih =>
    obtain ⟨k2, w⟩ := hd
    by_cases h : k2 = k
    · simp [aset, h, alookup]
    · simp [aset, h, alookup, ih]

theorem filter_key_nil_of_alookup_none (t : CassTable) (k : PyVal)
    (h : alookup t k = Option.none) : t.filter (fun r => r.fst == k) = [] := by
  induction t with
  | nil => rfl
  | cons hd tl ih =>
    obtain ⟨k2, v⟩ := hd
    by_cases hk : k2 = k
    · simp [alookup, hk] at h
    · simp [alookup, hk] at h
      have hbeq : (k2 == k) = false := by simp [hk]
      simp [List.filter_cons, hbeq, ih h]

theorem pickled_ne : ∀ v : PyVal, PyVal.pickled v ≠ v
  | PyVal.str _ => fun h => PyVal.noConfusion h
  | PyVal.int _ => fun h => PyVal.noConfusion h
  | PyVal.vlist _ => fun h => PyVal.noConfusion h
  | PyVal.none => fun h => PyVal.noConfusion h
  | PyVal.bytesOf _ => fun h => PyVal.noConfusion h
  | PyVal.pickled w => fun h => pickled_ne w (PyVal.pickled.inj h)

/-! ## Claims -/

/-- C1, counterexample: a configuration holding both the `dict` and the
`redis` backend keys does not fail — the factory silently selects the
in-memory backend. -/
theorem factory_two_backend_keys_no_error :
    storage true true [("dict", []), ("redis", [("host", PyVal.str "localhost")])] 0
      = Except.ok (StorageInstance.inMemory []) := by
  rfl

/-- C1 (amended): the factory `storage(storage_config, index)` fails (with
`ValueError`) exactly when the configuration contains none of the
recognized backend keys `dict`, `redis`, `cassandra`; when two or more are
present it does not fail but silently selects one, in the priority order
`dict`, `redis`, `cassandra`. -/
theorem factory_fails_iff_no_backend_key (cfg : StorageConfig) (i : Int) :
    (∃ e, storage true true cfg i = Except.error e) ↔
      (ahasKey cfg "dict" = false ∧ ahasKey cfg "redis" = false ∧
       ahasKey cfg "cassandra" = false) := by
  unfold storage
  by_cases h1 : ahasKey cfg "dict" <;> by_cases h2 : ahasKey cfg "redis" <;>
    by_cases h3 : ahasKey cfg "cassandra" <;>
      simp [h1, h2, h3, RedisStorage.init, CassandraStorage.init, Except.map]

/-- C1 witness: the empty configuration makes the factory fail. -/
theorem factory_fails_iff_no_backend_key_witness :
    ∃ e, storage true true ([] : StorageConfig) 0 = Except.error e :=
  (factory_fails_iff_no_backend_key [] 0).mpr ⟨rfl, rfl, rfl⟩

/-- C2: every call of `RedisStorage.append_val` raises `NameError` on the
bare name `json` — the module imports `ujson`, so the serialization
expression `json.dumps(val)` never evaluates and nothing is pushed; the
call never succeeds, encodable value and reachable backend notwithstanding. -/
theorem redis_append_val_raises_name_error (st : RedisState) (key val : PyVal) :
    RedisStorage.append_val st key val = Except.error (PyError.nameError "json") := by
  rfl

/-- C3, counterexample: appending the numeric vector `[1, 2]` under key
`"h1"` to an empty Cassandra table and reading the list back yields the
still-encoded entry `pickle.dumps(csr_matrix(array([1, 2])))`, not the
decoded original vector. -/
theorem cassandra_get_list_not_decoded_cex :
    CassandraStorage.get_list
        (CassandraStorage.append_val ([] : CassTable) (PyVal.str "h1")
          (PyVal.vlist [PyVal.int 1, PyVal.int 2])) (PyVal.str "h1")
      = [PyVal.pickled (PyVal.vlist [PyVal.int 1, PyVal.int 2])] ∧
    PyVal.pickled (PyVal.vlist [PyVal.int 1, PyVal.int 2])
      ≠ PyVal.vlist [PyVal.int 1, PyVal.int 2] := by
  exact ⟨rfl, by decide⟩

/-- C3 (amended): for the Cassandra adapter, `append_val(key, val)` followed
by `get_list(key)` extends the read-back list with the encoded entry
`pickle.dumps(csr_matrix(array(val)))`, which differs from the original
value: like the Remote-KV adapter, `get_list` returns still-encoded entries
and does not invert the numeric-array encoding applied by `append_val`. -/
theorem cassandra_append_get_list_still_encoded (t : CassTable) (k v : PyVal) :
    CassandraStorage.get_list (CassandraStorage.append_val t k v) k
      = CassandraStorage.get_list t k ++ [PyVal.pickled v] ∧
    PyVal.pickled v ≠ v := by
  constructor
  · simp [CassandraStorage.get_list, CassandraStorage.append_val, List.filter_append]
  · exact pickled_ne v

/-- C4: on the in-memory backend, starting from a fresh adapter,
`append_val("h1", "x")` then `append_val("h1", "y")` succeed, after which
`get_list("h1")` is exactly the list `["x", "y"]` in that order and
`keys()` includes `"h1"`. -/
theorem inmemory_append_append_scenario :
    InMemoryStorage.append_val (InMemoryStorage.init []) (PyVal.str "h1") (PyVal.str "x")
      = Except.ok [(PyVal.str "h1", PyVal.vlist [PyVal.str "x"])] ∧
    InMemoryStorage.append_val [(PyVal.str "h1", PyVal.vlist [PyVal.str "x"])]
        (PyVal.str "h1") (PyVal.str "y")
      = Except.ok [(PyVal.str "h1", PyVal.vlist [PyVal.str "x", PyVal.str "y"])] ∧
    InMemoryStorage.get_list [(PyVal.str "h1", PyVal.vlist [PyVal.str "x", PyVal.str "y"])]
        (PyVal.str "h1")
      = PyVal.vlist [PyVal.str "x", PyVal.str "y"] ∧
    PyVal.str "h1" ∈ InMemoryStorage.keys
        [(PyVal.str "h1", PyVal.vlist [PyVal.str "x", PyVal.str "y"])] := by
  refine ⟨rfl, rfl, rfl, ?_⟩
  decide

/-- C5: for a key that was never written, `get_list` returns the empty
sequence and raises no error, on the in-memory, the Redis and the
Cassandra backends alike. -/
theorem get_list_absent_key_empty (d : InMemDict) (r : RedisState) (t : CassTable)
    (k : PyVal) (hd : alookup d k = Option.none) (hr : alookup r k = Option.none)
    (ht : alookup t k = Option.none) :
    InMemoryStorage.get_list d k = PyVal.vlist [] ∧
    RedisStorage.get_list r k = Except.ok [] ∧
    CassandraStorage.get_list t k = [] := by
  refine ⟨?_, ?_, ?_⟩
  · simp [InMemoryStorage.get_list, hd]
  · simp [RedisStorage.get_list, redisNativeLrange, hr]
  · simp [CassandraStorage.get_list, filter_key_nil_of_alookup_none t k ht]

/-- C5 witness: on the three empty stores the unwritten key `"h9"` reads
back as an empty list on every backend. -/
theorem get_list_absent_key_empty_witness :
    InMemoryStorage.get_list ([] : InMemDict) (PyVal.str "h9") = PyVal.vlist [] ∧
    RedisStorage.get_list ([] : RedisState) (PyVal.str "h9") = Except.ok [] ∧
    CassandraStorage.get_list ([] : CassTable) (PyVal.str "h9") = [] :=
  get_list_absent_key_empty [] [] [] (PyVal.str "h9") rfl rfl rfl

/-- C6: `set_val(k, v)` followed by `get_val(k)` returns `v` on the
in-memory backend, and on the Redis backend returns the byte encoding of
`v` (which is `v` itself for byte-string values). -/
theorem set_get_roundtrip (d : InMemDict) (r : RedisState) (k v : PyVal) :
    InMemoryStorage.get_val (InMemoryStorage.set_val d k v) k = Except.ok v ∧
    RedisStorage.get_val (RedisStorage.set_val r k v) k = Except.ok (redisEncode v) ∧
    (∀ s : String, redisEncode (PyVal.str s) = PyVal.str s) := by
  refine ⟨?_, ?_, fun s => rfl⟩
  · simp [InMemoryStorage.get_val, InMemoryStorage.set_val, alookup_aset]
  · simp [RedisStorage.get_val, RedisStorage.set_val, redisNativeGet, redisNativeSet,
      alookup_aset]

/-- C7: when the configuration selects the Redis (resp. Cassandra) backend,
the factory sets the reserved field `db` of that backend's parameter
sub-map to `index` and passes the resulting sub-map to the adapter
constructor, whose `db` entry then is `index`; the in-memory branch passes
its sub-map through with no injection. -/
theorem factory_injects_db (cfg : StorageConfig) (i : Int) :
    (ahasKey cfg "dict" = false → ahasKey cfg "redis" = true →
      storage true true cfg i = Except.ok (StorageInstance.redisH
          ⟨aset ((alookup cfg "redis").getD []) "db" (PyVal.int i)⟩) ∧
      alookup (aset ((alookup cfg "redis").getD []) "db" (PyVal.int i)) "db"
        = Option.some (PyVal.int i)) ∧
    (ahasKey cfg "dict" = false → ahasKey cfg "redis" = false →
     ahasKey cfg "cassandra" = true →
      storage true true cfg i = Except.ok (StorageInstance.cassandraH
          ⟨aset ((alookup cfg "cassandra").getD []) "db" (PyVal.int i)⟩) ∧
      alookup (aset ((alookup cfg "cassandra").getD []) "db" (PyVal.int i)) "db"
        = Option.some (PyVal.int i)) ∧
    (ahasKey cfg "dict" = true →
      storage true true cfg i
        = Except.ok (StorageInstance.inMemory ((alookup cfg "dict").getD []))) := by
  refine ⟨fun h1 h2 => ⟨?_, alookup_aset _ _ _⟩,
    fun h1 h2 h3 => ⟨?_, alookup_aset _ _ _⟩, fun h1 => ?_⟩
  · simp [storage, h1, h2, RedisStorage.init, Except.map]
  · simp [storage, h1, h2, h3, CassandraStorage.init, Except.map]
  · simp [storage, h1]

/-- C7 witness: selecting the Redis backend with index `3` constructs the
adapter from parameters whose `db` entry is `3`. -/
theorem factory_injects_db_witness :
    storage true true [("redis", [("host", PyVal.str "localhost")])] 3
      = Except.ok (StorageInstance.redisH
          ⟨[("host", PyVal.str "localhost"), ("db", PyVal.int 3)]⟩) ∧
    alookup [("host", PyVal.str "localhost"), ("db", PyVal.int 3)] "db"
      = Option.some (PyVal.int 3) := by
  have h := (factory_injects_db [("redis", [("host", PyVal.str "localhost")])] 3).1 rfl rfl
  exact ⟨h.1, h.2⟩

/-- C8: for the Cassandra adapter, `keys(pattern)` issues the same
full-table key projection whatever the pattern: its result does not depend
on the pattern argument. -/
theorem cassandra_keys_ignores_pattern (t : CassTable) (p1 p2 : PyVal) :
    CassandraStorage.keys t p1 = CassandraStorage.keys t p2 := rfl

/-- C9: when the redis (resp. cql) client library is unavailable, the
adapter constructor fails immediately with the unsupported-backend
`ImportError`; construction succeeds exactly when the library is available,
so an adapter instance never exists whose first use would discover the
missing library. -/
theorem adapter_init_gates_on_client_library (config : Params) :
    RedisStorage.init false config
      = Except.error (PyError.importError
          "redis-py is required to use Redis as storage.") ∧
    CassandraStorage.init false config
      = Except.error (PyError.importError
          "cql is required to use Cassandra as storage.") ∧
    (∀ b : Bool, (RedisStorage.init b config).isOk = b) ∧
    (∀ b : Bool, (CassandraStorage.init b config).isOk = b) := by
  refine ⟨rfl, rfl, fun b => ?_, fun b => ?_⟩ <;> cases b <;> rfl

/-- C10: on the in-memory backend, `get_val` on a never-set key raises
`KeyError`, while the Redis adapter's `get_val` on an absent key returns
the client's absent-value sentinel `None` instead of failing. -/
theorem get_val_absent_key (d : InMemDict) (r : RedisState) (k : PyVal)
    (hd : alookup d k = Option.none) (hr : alookup r k = Option.none) :
    InMemoryStorage.get_val d k = Except.error PyError.keyError ∧
    RedisStorage.get_val r k = Except.ok PyVal.none := by
  constructor
  · simp [InMemoryStorage.get_val, hd]
  · simp [RedisStorage.get_val, redisNativeGet, hr]

/-- C10 witness: on the empty stores the unset key `"h0"` raises `KeyError`
in memory and reads as `None` from Redis. -/
theorem get_val_absent_key_witness :
    InMemoryStorage.get_val ([] : InMemDict) (PyVal.str "h0")
      = Except.error PyError.keyError ∧
    RedisStorage.get_val ([] : RedisState) (PyVal.str "h0") = Except.ok PyVal.none :=
  get_val_absent_key [] [] (PyVal.str "h0") rfl rfl

end LSHashStorage
